import Mathlib

/-!
Shallow embedding of the appointment-booking backend
(Express/Mongoose controllers and the Appointment model).

Conventions of the embedding:
* Object ids are natural numbers (Mongo ObjectIds are opaque unique keys).
* Instants are natural numbers counting minutes since the epoch; a calendar
  day is 1440 minutes.  The stored `date` field of an appointment is such an
  instant; `time` is kept as the raw HH:MM string, exactly as in the schema.
* The Mongo collection backing the Appointment model is a `List Appointment`;
  the User collection is a `List User`.
* Mongoose `save` runs schema validation at document creation and the
  user-defined pre-save conflict hook on every save; both are embedded
  explicitly (`saveNew` for inserts, `saveExisting` for updates).
* An HTTP response is reduced to its status code and message string.
-/

namespace AppointmentApp

/-- A user document (src/backend/models/User.js, fields relevant here). -/
structure User where
  id : Nat
  role : String
  isActive : Bool
  deriving DecidableEq, Repr

/-- An appointment document (appointment model schema). -/
structure Appointment where
  id : Nat
  patientId : Nat
  doctorId : Nat
  date : Nat
  time : String
  duration : Int
  status : String
  notes : String
  symptoms : String
  isUrgent : Bool
  createdAt : Nat
  deriving DecidableEq, Repr

/-- An HTTP response, reduced to status code and message. -/
structure ApiResponse where
  code : Nat
  msg : String
  deriving DecidableEq, Repr

/-- The four values of the schema status enum
(`enum: [pending, confirmed, cancelled, completed]`). -/
def validStatus (s : String) : Bool :=
  s == "pending" || s == "confirmed" || s == "cancelled" || s == "completed"

/-- Digit-string value, as parseInt reads the pieces of an HH:MM string. -/
def digitsVal (cs : List Char) : Nat :=
  cs.foldl (fun n c => n * 10 + (c.toNat - 48)) 0

/-- The hour component of a time string: `parseInt(time.split(":")[0])`. -/
def timeHour (t : String) : Nat :=
  digitsVal ((t.toList.splitOn ':').headD [])

/-- The minute component of a time string: `parseInt(time.split(":")[1])`. -/
def timeMinute (t : String) : Nat :=
  digitsVal ((t.toList.splitOn ':').getD 1 [])

/-- Hour part of the schema time regex: `([0-1]?[0-9]|2[0-3])`. -/
def validHourChars : List Char → Bool
  | [c] => c.isDigit
  | [c₁, c₂] => ((c₁ == '0' || c₁ == '1') && c₂.isDigit)
      || (c₁ == '2' && ('0' ≤ c₂ && c₂ ≤ '3'))
  | _ => false

/-- Minute part of the schema time regex: `[0-5][0-9]`. -/
def validMinuteChars : List Char → Bool
  | [c₁, c₂] => ('0' ≤ c₁ && c₁ ≤ '5') && c₂.isDigit
  | _ => false

/-- The schema match validator for `time` (HH:MM, 24h). -/
def validTime (t : String) : Bool :=
  match t.toList.splitOn ':' with
  | [h, m] => validHourChars h && validMinuteChars m
  | _ => false

/-- Schema validation run by Mongoose when a document is first saved:
date not in the past (`value > new Date()`), time format, status enum,
duration bounds 15..120, notes and symptoms maxlength. -/
def validateAppointment (now : Nat) (a : Appointment) : Bool :=
  decide (now < a.date) && validTime a.time && validStatus a.status &&
  decide (15 ≤ a.duration) && decide (a.duration ≤ 120) &&
  decide (a.notes.length ≤ 500) && decide (a.symptoms.length ≤ 300)

/-- The query of the pre-save conflict hook: another appointment with the
same doctor, date and time, status not in [cancelled], id different from
the document being saved. -/
def conflictsWith (a b : Appointment) : Bool :=
  b.doctorId == a.doctorId && b.date == a.date && b.time == a.time &&
  !(b.status == "cancelled") && !(b.id == a.id)

/-- `findOne` of the conflict query over the collection. -/
def findConflict (db : List Appointment) (a : Appointment) : Option Appointment :=
  db.find? (conflictsWith a)

/-- Replace the stored document with the same id (Mongoose save of an
already-persisted document). -/
def replaceById (db : List Appointment) (a : Appointment) : List Appointment :=
  db.map fun b => if b.id = a.id then a else b

/-- Save of a brand-new document: schema validation, then the pre-save
conflict hook, then insertion. -/
def saveNew (now : Nat) (db : List Appointment) (a : Appointment) :
    Except String (List Appointment) :=
  if validateAppointment now a then
    match findConflict db a with
    | some _ => .error "Appointment slot is already booked"
    | none => .ok (db ++ [a])
  else .error "Validation failed"

/-- Save of an already-persisted document: the pre-save conflict hook runs
on every save, then the stored document is replaced. -/
def saveExisting (db : List Appointment) (a : Appointment) :
    Except String (List Appointment) :=
  match findConflict db a with
  | some _ => .error "Appointment slot is already booked"
  | none => .ok (replaceById db a)

/-- A fresh ObjectId for an insert: strictly larger than every id in use. -/
def freshId (db : List Appointment) : Nat :=
  db.foldr (fun a m => max a.id m) 0 + 1

/-- JavaScript `x || d` over an optional numeric field: an absent value and
the falsy number 0 both fall back to the default. -/
def jsOr (o : Option Int) (d : Int) : Int :=
  match o with
  | none => d
  | some x => if x = 0 then d else x

/-- The body of a create-appointment request. -/
structure CreateBody where
  doctorId : Option Nat := none
  date : Option Nat := none
  time : Option String := none
  notes : Option String := none
  symptoms : Option String := none
  duration : Option Int := none
  isUrgent : Option Bool := none
  deriving Repr

/-- `appointmentSchema.methods.canBeCancelled`: rebuild the start instant
from the day of the stored date plus the HH:MM time, and compare it with
now + 2 hours. -/
def canBeCancelled (now : Nat) (a : Appointment) : Bool :=
  decide (a.date / 1440 * 1440 + timeHour a.time * 60 + timeMinute a.time > now + 120)

/-- The document built by `new Appointment({...})` in `createAppointment`:
patient is the caller, status defaults to pending, duration falls back to
30 through the JavaScript or-default, urgency defaults to false. -/
def newAppointmentDoc (db : List Appointment) (caller : User)
    (doctorId date : Nat) (time : String) (body : CreateBody) (now : Nat) :
    Appointment :=
  { id := freshId db
    patientId := caller.id
    doctorId := doctorId
    date := date
    time := time
    duration := jsOr body.duration 30
    status := "pending"
    notes := body.notes.getD ""
    symptoms := body.symptoms.getD ""
    isUrgent := body.isUrgent.getD false
    createdAt := now }

/-- `createAppointment` (appointment controller): required fields, active
doctor lookup, past-date check, then construction and save of a pending
appointment. -/
def createAppointment (users : List User) (db : List Appointment)
    (caller : User) (body : CreateBody) (now : Nat) :
    ApiResponse × List Appointment :=
  match body.doctorId, body.date, body.time with
  | some doctorId, some date, some time =>
    match users.find? (fun u => u.id == doctorId && u.role == "doctor" && u.isActive) with
    | none => (⟨404, "Doctor not found or inactive"⟩, db)
    | some _ =>
      if date ≤ now then
        (⟨400, "Appointment date cannot be in the past"⟩, db)
      else
        match saveNew now db (newAppointmentDoc db caller doctorId date time body now) with
        | .error e =>
          if e == "Appointment slot is already booked" then (⟨400, e⟩, db)
          else (⟨400, "Validation failed"⟩, db)
        | .ok db' => (⟨201, "Appointment created successfully"⟩, db')
  | _, _, _ => (⟨400, "Doctor ID, date, and time are required"⟩, db)

/-- The role-scoping part of the list/read filter: patients match on
patientId, doctors on doctorId, admins match everything. -/
def roleFilter (caller : User) (a : Appointment) : Bool :=
  if caller.role == "patient" then a.patientId == caller.id
  else if caller.role == "doctor" then a.doctorId == caller.id
  else true

/-- The full filter built by `getAppointments`: role scope, optional status
filter (applied only when the value is one of the enum), optional one-day
date window. -/
def matchesQuery (caller : User) (statusQ : Option String) (dateQ : Option Nat)
    (a : Appointment) : Bool :=
  roleFilter caller a &&
  (match statusQ with
   | some s => if validStatus s then a.status == s else true
   | none => true) &&
  (match dateQ with
   | some d => decide (d ≤ a.date) && decide (a.date < d + 1440)
   | none => true)

/-- The sort key of `getAppointmentsWithUsers`: date ascending, then time. -/
def aptBefore (a b : Appointment) : Bool :=
  a.date < b.date || (a.date == b.date && a.time ≤ b.time)

/-- `getAppointments` (appointment controller): filter by role and query,
sort by date and time, then paginate with skip = (page-1)*limit. -/
def getAppointments (db : List Appointment) (caller : User)
    (statusQ : Option String) (dateQ : Option Nat) (limit page : Nat) :
    List Appointment :=
  ((((db.filter (matchesQuery caller statusQ dateQ)).mergeSort aptBefore).drop
    ((page - 1) * limit)).take limit)

/-- `getAppointmentById` (appointment controller): the role scope is part of
the findOne filter, so an out-of-scope id behaves like a missing one. -/
def getAppointmentById (db : List Appointment) (caller : User)
    (appointmentId : Nat) : ApiResponse :=
  match db.find? (fun a => a.id == appointmentId && roleFilter caller a) with
  | none => ⟨404, "Appointment not found"⟩
  | some _ => ⟨200, "success"⟩

/-- `updateAppointmentStatus` (appointment controller): enum check, lookup,
ownership checks for patients and doctors, then set status and save. -/
def updateAppointmentStatus (db : List Appointment) (caller : User)
    (appointmentId : Nat) (status : String) :
    ApiResponse × List Appointment :=
  if !validStatus status then (⟨400, "Invalid status value"⟩, db)
  else
    match db.find? (fun a => a.id == appointmentId) with
    | none => (⟨404, "Appointment not found"⟩, db)
    | some apt =>
      if caller.role == "patient" && !(apt.patientId == caller.id) then
        (⟨403, "Access denied"⟩, db)
      else if caller.role == "doctor" && !(apt.doctorId == caller.id) then
        (⟨403, "Access denied"⟩, db)
      else
        match saveExisting db { apt with status := status } with
        | .error _ => (⟨500, "Failed to update appointment status"⟩, db)
        | .ok db' => (⟨200, "Appointment status updated successfully"⟩, db')

/-- `cancelAppointment` (appointment controller): lookup, ownership checks
for patients and doctors, the canBeCancelled timing check (applied to every
caller), then set status to cancelled and save. -/
def cancelAppointment (db : List Appointment) (caller : User)
    (appointmentId : Nat) (now : Nat) :
    ApiResponse × List Appointment :=
  match db.find? (fun a => a.id == appointmentId) with
  | none => (⟨404, "Appointment not found"⟩, db)
  | some apt =>
    if caller.role == "patient" && !(apt.patientId == caller.id) then
      (⟨403, "Access denied"⟩, db)
    else if caller.role == "doctor" && !(apt.doctorId == caller.id) then
      (⟨403, "Access denied"⟩, db)
    else if !canBeCancelled now apt then
      (⟨400, "Appointment cannot be cancelled (less than 2 hours away)"⟩, db)
    else
      match saveExisting db { apt with status := "cancelled" } with
      | .error _ => (⟨500, "Failed to cancel appointment"⟩, db)
      | .ok db' => (⟨200, "Appointment cancelled successfully"⟩, db')

/-- `updateUserStatus` (user controller): admin gate, lookup, the
self-targeting guard, then set the isActive flag and save. -/
def updateUserStatus (users : List User) (caller : User)
    (userId : Nat) (isActive : Bool) : ApiResponse × List User :=
  if !(caller.role == "admin") then (⟨403, "Access denied"⟩, users)
  else
    match users.find? (fun u => u.id == userId) with
    | none => (⟨404, "User not found"⟩, users)
    | some u =>
      if u.id = caller.id then
        (⟨400, "Cannot deactivate your own account"⟩, users)
      else
        (⟨200, if isActive then "User activated successfully"
               else "User deactivated successfully"⟩,
         users.map fun v => if v.id = u.id then { v with isActive := isActive } else v)

/-- Two appointments occupy the same slot: same doctor, date and time. -/
def SameSlot (a b : Appointment) : Prop :=
  a.doctorId = b.doctorId ∧ a.date = b.date ∧ a.time = b.time

instance (a b : Appointment) : Decidable (SameSlot a b) := by
  unfold SameSlot; infer_instance

/-- There is a conflicting live appointment for `a` in the collection:
what the pre-save hook query looks for. -/
def HasConflict (db : List Appointment) (a : Appointment) : Prop :=
  ∃ b ∈ db, SameSlot b a ∧ b.status ≠ "cancelled" ∧ b.id ≠ a.id

instance (db : List Appointment) (a : Appointment) : Decidable (HasConflict db a) := by
  unfold HasConflict; infer_instance

/-- The double-booking invariant: no two live (non-cancelled) appointments
in the collection occupy the same slot. -/
def NoDoubleBooking (db : List Appointment) : Prop :=
  db.Pairwise fun a b =>
    a.status ≠ "cancelled" → b.status ≠ "cancelled" → ¬SameSlot a b

/-- Ids are pairwise distinct in the collection (Mongo primary key). -/
def UniqueIds (db : List Appointment) : Prop :=
  db.Pairwise fun a b => a.id ≠ b.id

instance (db : List Appointment) : Decidable (NoDoubleBooking db) := by
  unfold NoDoubleBooking; infer_instance

instance (db : List Appointment) : Decidable (UniqueIds db) := by
  unfold UniqueIds; infer_instance

/-- All fields except `status` agree: the frame of a status transition. -/
def FrameEq (a b : Appointment) : Prop :=
  a.id = b.id ∧ a.patientId = b.patientId ∧ a.doctorId = b.doctorId ∧
  a.date = b.date ∧ a.time = b.time ∧ a.duration = b.duration ∧
  a.notes = b.notes ∧ a.symptoms = b.symptoms ∧ a.isUrgent = b.isUrgent ∧
  a.createdAt = b.createdAt

instance (a b : Appointment) : Decidable (FrameEq a b) := by
  unfold FrameEq; infer_instance

/-! Concrete fixtures used to instantiate the theorems below. -/

/-- A sample active doctor. -/
def doctor2 : User := ⟨2, "doctor", true⟩

/-- A sample patient. -/
def patient1 : User := ⟨1, "patient", true⟩

/-- A second sample patient, owner of nothing below. -/
def patient3 : User := ⟨3, "patient", true⟩

/-- A sample admin. -/
def admin9 : User := ⟨9, "admin", true⟩

/-- A sample pending appointment of patient 1 with doctor 2 at 10:00 on
day 100 (date = 100 * 1440 minutes). -/
def apt0 : Appointment :=
  { id := 1, patientId := 1, doctorId := 2, date := 144000, time := "10:00",
    duration := 30, status := "pending", notes := "", symptoms := "",
    isUrgent := false, createdAt := 0 }

end AppointmentApp

/-! ### Basic lemmas about the conflict guard and the invariants -/

namespace AppointmentApp

theorem SameSlot.symm {a b : Appointment} (h : SameSlot a b) : SameSlot b a :=
  ⟨h.1.symm, h.2.1.symm, h.2.2.symm⟩

theorem conflictsWith_eq_true_iff (a b : Appointment) :
    conflictsWith a b = true ↔ SameSlot b a ∧ b.status ≠ "cancelled" ∧ b.id ≠ a.id := by
  simp [conflictsWith, SameSlot, and_assoc]

theorem findConflict_eq_none_iff (db : List Appointment) (a : Appointment) :
    findConflict db a = none ↔ ¬ HasConflict db a := by
  simp [findConflict, List.find?_eq_none, HasConflict, conflictsWith_eq_true_iff]

theorem findConflict_isSome_iff (db : List Appointment) (a : Appointment) :
    (findConflict db a).isSome = true ↔ HasConflict db a := by
  simp [findConflict, List.find?_isSome, HasConflict, conflictsWith_eq_true_iff]

theorem saveNew_eq_ok_iff {now : Nat} {db db' : List Appointment} {a : Appointment} :
    saveNew now db a = Except.ok db' ↔
      validateAppointment now a = true ∧ findConflict db a = none ∧ db' = db ++ [a] := by
  unfold saveNew
  split
  · next hv =>
    cases hfc : findConflict db a <;> simp [hfc, hv, eq_comm]
  · next hv => simp [hv]

theorem saveExisting_eq_ok_iff {db db' : List Appointment} {a : Appointment} :
    saveExisting db a = Except.ok db' ↔
      findConflict db a = none ∧ db' = replaceById db a := by
  unfold saveExisting
  cases hfc : findConflict db a <;> simp [hfc, eq_comm]

theorem id_le_fold (db : List Appointment) :
    ∀ b ∈ db, b.id ≤ db.foldr (fun a m => max a.id m) 0 := by
  induction db with
  | nil => intro b hb; cases hb
  | cons c cs ih =>
    intro b hb
    rcases List.mem_cons.mp hb with h | h
    · subst h; exact le_max_left _ _
    · exact le_trans (ih b h) (le_max_right _ _)

theorem freshId_gt (db : List Appointment) : ∀ b ∈ db, b.id < freshId db :=
  fun b hb => Nat.lt_succ_of_le (id_le_fold db b hb)

theorem noDouble_replaceById {db : List Appointment} {a : Appointment}
    (hu : UniqueIds db) (hnd : NoDoubleBooking db) (hc : ¬ HasConflict db a) :
    NoDoubleBooking (replaceById db a) := by
  unfold NoDoubleBooking UniqueIds replaceById at *
  rw [List.pairwise_map]
  refine List.Pairwise.imp_of_mem ?_ (hnd.and hu)
  intro b c hb hcm hR
  obtain ⟨hR, hid⟩ := hR
  by_cases h1 : b.id = a.id <;> by_cases h2 : c.id = a.id
  · exact absurd (h1.trans h2.symm) hid
  · rw [if_pos h1, if_neg h2]
    intro _ hc2 hs
    exact hc ⟨c, hcm, SameSlot.symm hs, hc2, h2⟩
  · rw [if_neg h1, if_pos h2]
    intro hb1 _ hs
    exact hc ⟨b, hb, hs, hb1, h1⟩
  · rw [if_neg h1, if_neg h2]
    exact hR

theorem uniqueIds_replaceById {db : List Appointment} {a : Appointment}
    (hu : UniqueIds db) : UniqueIds (replaceById db a) := by
  unfold UniqueIds replaceById at *
  rw [List.pairwise_map]
  refine List.Pairwise.imp_of_mem ?_ hu
  intro b c _ _ hbc
  dsimp only
  by_cases h1 : b.id = a.id <;> by_cases h2 : c.id = a.id
  · exact absurd (h1.trans h2.symm) hbc
  · rw [if_pos h1, if_neg h2]
    exact fun h => hbc (h1.trans h)
  · rw [if_neg h1, if_pos h2]
    exact fun h => hbc (h.trans h2.symm)
  · rw [if_neg h1, if_neg h2]
    exact hbc

theorem noDouble_append {db : List Appointment} {a : Appointment}
    (hnd : NoDoubleBooking db) (hc : ¬ HasConflict db a)
    (hfresh : ∀ b ∈ db, b.id ≠ a.id) :
    NoDoubleBooking (db ++ [a]) := by
  unfold NoDoubleBooking at *
  rw [List.pairwise_append]
  refine ⟨hnd, List.pairwise_singleton _ _, ?_⟩
  intro b hb x hx
  rcases List.mem_singleton.mp hx with rfl
  intro hb1 _ hs
  exact hc ⟨b, hb, hs, hb1, hfresh b hb⟩

theorem uniqueIds_append {db : List Appointment} {a : Appointment}
    (hu : UniqueIds db) (hfresh : ∀ b ∈ db, b.id ≠ a.id) :
    UniqueIds (db ++ [a]) := by
  unfold UniqueIds at *
  rw [List.pairwise_append]
  exact ⟨hu, List.pairwise_singleton _ _, fun b hb x hx =>
    (List.mem_singleton.mp hx) ▸ hfresh b hb⟩

end AppointmentApp

/-! ### Preservation of the double-booking invariant by every operation -/

namespace AppointmentApp

theorem createAppointment_preserves (users : List User) (db : List Appointment)
    (caller : User) (body : CreateBody) (now : Nat)
    (hu : UniqueIds db) (hnd : NoDoubleBooking db) :
    UniqueIds (createAppointment users db caller body now).2 ∧
    NoDoubleBooking (createAppointment users db caller body now).2 := by
  unfold createAppointment
  split
  · split
    · exact ⟨hu, hnd⟩
    · split
      · exact ⟨hu, hnd⟩
      · split
        · split
          · exact ⟨hu, hnd⟩
          · exact ⟨hu, hnd⟩
        · rename_i heq
          obtain ⟨hv, hfc, rfl⟩ := saveNew_eq_ok_iff.mp heq
          have hfresh : ∀ b ∈ db, b.id ≠ freshId db :=
            fun b hb => Nat.ne_of_lt (freshId_gt db b hb)
          exact ⟨uniqueIds_append hu hfresh,
            noDouble_append hnd ((findConflict_eq_none_iff _ _).mp hfc) hfresh⟩
  · exact ⟨hu, hnd⟩

theorem updateAppointmentStatus_preserves (db : List Appointment) (caller : User)
    (appointmentId : Nat) (status : String)
    (hu : UniqueIds db) (hnd : NoDoubleBooking db) :
    UniqueIds (updateAppointmentStatus db caller appointmentId status).2 ∧
    NoDoubleBooking (updateAppointmentStatus db caller appointmentId status).2 := by
  unfold updateAppointmentStatus
  split
  · exact ⟨hu, hnd⟩
  · split
    · exact ⟨hu, hnd⟩
    · split
      · exact ⟨hu, hnd⟩
      · split
        · exact ⟨hu, hnd⟩
        · split
          · exact ⟨hu, hnd⟩
          · rename_i heq
            obtain ⟨hfc, rfl⟩ := saveExisting_eq_ok_iff.mp heq
            exact ⟨uniqueIds_replaceById hu,
              noDouble_replaceById hu hnd ((findConflict_eq_none_iff _ _).mp hfc)⟩

theorem cancelAppointment_preserves (db : List Appointment) (caller : User)
    (appointmentId now : Nat)
    (hu : UniqueIds db) (hnd : NoDoubleBooking db) :
    UniqueIds (cancelAppointment db caller appointmentId now).2 ∧
    NoDoubleBooking (cancelAppointment db caller appointmentId now).2 := by
  unfold cancelAppointment
  split
  · exact ⟨hu, hnd⟩
  · split
    · exact ⟨hu, hnd⟩
    · split
      · exact ⟨hu, hnd⟩
      · split
        · exact ⟨hu, hnd⟩
        · split
          · exact ⟨hu, hnd⟩
          · rename_i heq
            obtain ⟨hfc, rfl⟩ := saveExisting_eq_ok_iff.mp heq
            exact ⟨uniqueIds_replaceById hu,
              noDouble_replaceById hu hnd ((findConflict_eq_none_iff _ _).mp hfc)⟩

end AppointmentApp

/-! ### Claim C1: the conflict guard -/

namespace AppointmentApp

/-- C1: every attempt to save an appointment runs the conflict guard: when
another appointment with the same (doctor, date, time) and status not equal
to cancelled exists (excluding the document being saved), the save fails
with the error Appointment slot is already booked and no document is
persisted (the collection is returned unchanged by the failing operation);
when no such appointment exists the save succeeds.  Consequently every
operation of the API preserves the invariant that no two non-cancelled
appointments share a (doctor, date, time) slot. -/
theorem conflict_guard_spec :
    ∀ (db : List Appointment) (a : Appointment) (now : Nat),
      (HasConflict db a →
        saveExisting db a = Except.error "Appointment slot is already booked") ∧
      (HasConflict db a → validateAppointment now a = true →
        saveNew now db a = Except.error "Appointment slot is already booked") ∧
      (¬ HasConflict db a → saveExisting db a = Except.ok (replaceById db a)) ∧
      (¬ HasConflict db a → validateAppointment now a = true →
        saveNew now db a = Except.ok (db ++ [a])) ∧
      (∀ users caller body, UniqueIds db → NoDoubleBooking db →
        NoDoubleBooking (createAppointment users db caller body now).2) ∧
      (∀ caller appointmentId status, UniqueIds db → NoDoubleBooking db →
        NoDoubleBooking (updateAppointmentStatus db caller appointmentId status).2) ∧
      (∀ caller appointmentId, UniqueIds db → NoDoubleBooking db →
        NoDoubleBooking (cancelAppointment db caller appointmentId now).2) := by
  intro db a now
  refine ⟨?_, ?_, ?_, ?_, ?_, ?_, ?_⟩
  · intro h
    have hs : (findConflict db a).isSome = true := (findConflict_isSome_iff db a).mpr h
    unfold saveExisting
    cases hfc : findConflict db a
    · rw [hfc] at hs; simp at hs
    · rfl
  · intro h hv
    have hs : (findConflict db a).isSome = true := (findConflict_isSome_iff db a).mpr h
    unfold saveNew
    rw [if_pos hv]
    cases hfc : findConflict db a
    · rw [hfc] at hs; simp at hs
    · rfl
  · intro h
    unfold saveExisting
    rw [(findConflict_eq_none_iff db a).mpr h]
  · intro h hv
    unfold saveNew
    rw [if_pos hv, (findConflict_eq_none_iff db a).mpr h]
  · exact fun users caller body hu hnd =>
      (createAppointment_preserves users db caller body now hu hnd).2
  · exact fun caller appointmentId status hu hnd =>
      (updateAppointmentStatus_preserves db caller appointmentId status hu hnd).2
  · exact fun caller appointmentId hu hnd =>
      (cancelAppointment_preserves db caller appointmentId now hu hnd).2

/-- Witness for C1: a clashing save fails with the conflict message, a save
into a free slot succeeds, and a status update keeps the invariant. -/
theorem conflict_guard_spec_witness :
    saveExisting [apt0] { apt0 with id := 5, patientId := 3 } =
      Except.error "Appointment slot is already booked" ∧
    saveNew 1000 [apt0] { apt0 with id := 5, patientId := 3, time := "11:00" } =
      Except.ok [apt0, { apt0 with id := 5, patientId := 3, time := "11:00" }] ∧
    NoDoubleBooking (updateAppointmentStatus [apt0] admin9 1 "confirmed").2 := by
  refine ⟨(conflict_guard_spec [apt0] { apt0 with id := 5, patientId := 3 } 1000).1
      (by decide),
    (conflict_guard_spec [apt0] { apt0 with id := 5, patientId := 3, time := "11:00" }
      1000).2.2.2.1 (by decide) (by decide),
    (conflict_guard_spec [apt0] apt0 1000).2.2.2.2.2.1 admin9 1 "confirmed"
      (by decide) (by decide)⟩

end AppointmentApp

/-! ### Claim C8: status transitions change only the status field -/

namespace AppointmentApp

theorem frameEq_refl (a : Appointment) : FrameEq a a :=
  ⟨rfl, rfl, rfl, rfl, rfl, rfl, rfl, rfl, rfl, rfl⟩

theorem frameEq_setStatus (a : Appointment) (s : String) :
    FrameEq { a with status := s } a :=
  ⟨rfl, rfl, rfl, rfl, rfl, rfl, rfl, rfl, rfl, rfl⟩

theorem eq_of_id_eq {db : List Appointment} (hu : UniqueIds db)
    {b c : Appointment} (hb : b ∈ db) (hc : c ∈ db) (h : b.id = c.id) :
    b = c := by
  unfold UniqueIds at hu
  induction db with
  | nil => cases hb
  | cons d ds ih =>
    rcases List.pairwise_cons.mp hu with ⟨hd, hu'⟩
    rcases List.mem_cons.mp hb with rfl | hb' <;>
      rcases List.mem_cons.mp hc with rfl | hc'
    · rfl
    · exact absurd h (hd c hc')
    · exact absurd h.symm (hd b hb')
    · exact ih hu' hb' hc'

theorem replaceById_frame {db : List Appointment} {apt : Appointment}
    (s : String) (hu : UniqueIds db) (hmem : apt ∈ db) :
    (replaceById db { apt with status := s }).length = db.length ∧
    ∀ (i : Nat) (h1 : i < (replaceById db { apt with status := s }).length)
      (h2 : i < db.length),
      FrameEq ((replaceById db { apt with status := s }).get ⟨i, h1⟩)
        (db.get ⟨i, h2⟩) := by
  constructor
  · simp [replaceById]
  · intro i h1 h2
    unfold replaceById
    simp only [List.get_eq_getElem, List.getElem_map]
    by_cases hid : db[i].id = ({ apt with status := s } : Appointment).id
    · rw [if_pos hid]
      have hmem' : db[i] ∈ db := List.getElem_mem h2
      have : db[i] = apt := eq_of_id_eq hu hmem' hmem hid
      rw [this]
      exact frameEq_setStatus apt s
    · rw [if_neg hid]
      exact frameEq_refl _

/-- C8: a successful status update or cancellation changes only the status
field of the addressed appointment: every stored appointment keeps its
patient, doctor, date, time, duration, notes, symptoms, urgency flag and
creation timestamp, and the collection keeps its length. -/
theorem status_transition_frame :
    ∀ (db : List Appointment) (caller : User) (appointmentId : Nat)
      (status : String) (now : Nat), UniqueIds db →
      (∀ r db', updateAppointmentStatus db caller appointmentId status = (r, db') →
        r.code = 200 →
        db'.length = db.length ∧
        ∀ (i : Nat) (h1 : i < db'.length) (h2 : i < db.length),
          FrameEq (db'.get ⟨i, h1⟩) (db.get ⟨i, h2⟩)) ∧
      (∀ r db', cancelAppointment db caller appointmentId now = (r, db') →
        r.code = 200 →
        db'.length = db.length ∧
        ∀ (i : Nat) (h1 : i < db'.length) (h2 : i < db.length),
          FrameEq (db'.get ⟨i, h1⟩) (db.get ⟨i, h2⟩)) := by
  intro db caller appointmentId status now hu
  constructor
  · intro r db' heq h200
    unfold updateAppointmentStatus at heq
    split at heq
    · obtain ⟨rfl, rfl⟩ := Prod.mk.injEq .. |>.mp heq
      exact absurd h200 (by decide)
    · split at heq
      · obtain ⟨rfl, rfl⟩ := Prod.mk.injEq .. |>.mp heq
        exact absurd h200 (by decide)
      · rename_i apt hfind
        split at heq
        · obtain ⟨rfl, rfl⟩ := Prod.mk.injEq .. |>.mp heq
          exact absurd h200 (by decide)
        · split at heq
          · obtain ⟨rfl, rfl⟩ := Prod.mk.injEq .. |>.mp heq
            exact absurd h200 (by decide)
          · split at heq
            · obtain ⟨rfl, rfl⟩ := Prod.mk.injEq .. |>.mp heq
              exact absurd h200 (by decide)
            · rename_i hsave
              obtain ⟨rfl, rfl⟩ := Prod.mk.injEq .. |>.mp heq
              obtain ⟨hfc, rfl⟩ := saveExisting_eq_ok_iff.mp hsave
              exact replaceById_frame status hu (List.mem_of_find?_eq_some hfind)
  · intro r db' heq h200
    unfold cancelAppointment at heq
    split at heq
    · obtain ⟨rfl, rfl⟩ := Prod.mk.injEq .. |>.mp heq
      exact absurd h200 (by decide)
    · rename_i apt hfind
      split at heq
      · obtain ⟨rfl, rfl⟩ := Prod.mk.injEq .. |>.mp heq
        exact absurd h200 (by decide)
      · split at heq
        · obtain ⟨rfl, rfl⟩ := Prod.mk.injEq .. |>.mp heq
          exact absurd h200 (by decide)
        · split at heq
          · obtain ⟨rfl, rfl⟩ := Prod.mk.injEq .. |>.mp heq
            exact absurd h200 (by decide)
          · split at heq
            · obtain ⟨rfl, rfl⟩ := Prod.mk.injEq .. |>.mp heq
              exact absurd h200 (by decide)
            · rename_i hsave
              obtain ⟨rfl, rfl⟩ := Prod.mk.injEq .. |>.mp heq
              obtain ⟨hfc, rfl⟩ := saveExisting_eq_ok_iff.mp hsave
              exact replaceById_frame "cancelled" hu (List.mem_of_find?_eq_some hfind)

/-- Witness for C8: a concrete confirmed update and a concrete cancellation
leave every field but the status unchanged. -/
theorem status_transition_frame_witness :
    FrameEq (([{ apt0 with status := "confirmed" }] : List Appointment).get ⟨0, by decide⟩)
      (([apt0] : List Appointment).get ⟨0, by decide⟩) ∧
    FrameEq (([{ apt0 with status := "cancelled" }] : List Appointment).get ⟨0, by decide⟩)
      (([apt0] : List Appointment).get ⟨0, by decide⟩) := by
  have h := status_transition_frame [apt0] admin9 1 "confirmed" 1000 (by decide)
  refine ⟨(h.1 ⟨200, "Appointment status updated successfully"⟩
      [{ apt0 with status := "confirmed" }] (by decide) rfl).2 0 (by decide) (by decide),
    (h.2 ⟨200, "Appointment cancelled successfully"⟩
      [{ apt0 with status := "cancelled" }] (by decide) rfl).2 0 (by decide) (by decide)⟩

end AppointmentApp

/-! ### Claim C2: the status lifecycle -/

namespace AppointmentApp

theorem replaceById_self {db : List Appointment} {apt : Appointment}
    (hu : UniqueIds db) (hmem : apt ∈ db) : replaceById db apt = db := by
  unfold replaceById
  have h : db.map (fun b => if b.id = apt.id then apt else b) = db.map id := by
    refine List.map_congr_left ?_
    intro b hb
    by_cases hid : b.id = apt.id
    · rw [if_pos hid]
      exact (eq_of_id_eq hu hb hmem hid).symm
    · rw [if_neg hid]
      rfl
  rw [h, List.map_id]

/-- Counterexample to C2: completed is not terminal.  An appointment whose
status is completed is moved back to pending by an admin status-update
request: the operation answers 200 and persists the new status, where the
claim requires a rejection. -/
theorem completed_not_terminal_counterexample :
    updateAppointmentStatus [{ apt0 with status := "completed" }] admin9 1 "pending" =
      (⟨200, "Appointment status updated successfully"⟩,
       [{ apt0 with status := "pending" }]) ∧
    updateAppointmentStatus [{ apt0 with status := "cancelled" }] admin9 1 "confirmed" =
      (⟨200, "Appointment status updated successfully"⟩,
       [{ apt0 with status := "confirmed" }]) := by
  exact ⟨by decide, by decide⟩

/-- C2 (amended): the status-update operation checks only that the requested
status is one of the four enum values.  A status outside the enum fails with
the validation error Invalid status value; any of the four values — the same
status included — is accepted from any current status (given ownership and a
clear slot), so completed and cancelled are not terminal; a no-op update
answers 200 and leaves the collection unchanged. -/
theorem status_update_enum_only :
    ∀ (db : List Appointment) (caller : User) (appointmentId : Nat) (s : String),
      (validStatus s = false →
        updateAppointmentStatus db caller appointmentId s =
          (⟨400, "Invalid status value"⟩, db)) ∧
      (∀ apt, validStatus s = true →
        db.find? (fun a => a.id == appointmentId) = some apt →
        (caller.role = "patient" → apt.patientId = caller.id) →
        (caller.role = "doctor" → apt.doctorId = caller.id) →
        ¬ HasConflict db { apt with status := s } →
        updateAppointmentStatus db caller appointmentId s =
          (⟨200, "Appointment status updated successfully"⟩,
           replaceById db { apt with status := s })) ∧
      (∀ apt, UniqueIds db → validStatus s = true →
        db.find? (fun a => a.id == appointmentId) = some apt →
        apt.status = s →
        (caller.role = "patient" → apt.patientId = caller.id) →
        (caller.role = "doctor" → apt.doctorId = caller.id) →
        ¬ HasConflict db apt →
        updateAppointmentStatus db caller appointmentId s =
          (⟨200, "Appointment status updated successfully"⟩, db)) := by
  intro db caller appointmentId s
  have step : ∀ apt, validStatus s = true →
      db.find? (fun a => a.id == appointmentId) = some apt →
      (caller.role = "patient" → apt.patientId = caller.id) →
      (caller.role = "doctor" → apt.doctorId = caller.id) →
      ¬ HasConflict db { apt with status := s } →
      updateAppointmentStatus db caller appointmentId s =
        (⟨200, "Appointment status updated successfully"⟩,
         replaceById db { apt with status := s }) := by
    intro apt hv hfind hpat hdoc hconf
    have h2 : (caller.role == "patient" && !(apt.patientId == caller.id)) = false := by
      by_cases hp : caller.role = "patient"
      · rw [hpat hp]
        simp
      · have hne : (caller.role == "patient") = false := by
          simpa using hp
        rw [hne]
        rfl
    have h3 : (caller.role == "doctor" && !(apt.doctorId == caller.id)) = false := by
      by_cases hd : caller.role = "doctor"
      · rw [hdoc hd]
        simp
      · have hne : (caller.role == "doctor") = false := by
          simpa using hd
        rw [hne]
        rfl
    have hsave : saveExisting db { apt with status := s } =
        Except.ok (replaceById db { apt with status := s }) := by
      unfold saveExisting
      rw [(findConflict_eq_none_iff db _).mpr hconf]
    simp [updateAppointmentStatus, hv, hfind, h2, h3, hsave]
  refine ⟨?_, step, ?_⟩
  · intro hv
    unfold updateAppointmentStatus
    have h1 : (!validStatus s) = true := by rw [hv]; rfl
    rw [h1]
    simp
  · intro apt hu hv hfind hstat hpat hdoc hconf
    have hmem : apt ∈ db := List.mem_of_find?_eq_some hfind
    have heta : ({ apt with status := s } : Appointment) = apt := by
      cases apt
      simp_all
    have := step apt hv hfind hpat hdoc (by rw [heta]; exact hconf)
    rw [heta, replaceById_self hu hmem] at this
    exact this

/-- Witness for the amended C2 at concrete inputs: an invalid status is
rejected, a pending-to-confirmed update succeeds, and a no-op update
returns the collection unchanged. -/
theorem status_update_enum_only_witness :
    updateAppointmentStatus [apt0] doctor2 1 "blocked" =
      (⟨400, "Invalid status value"⟩, [apt0]) ∧
    updateAppointmentStatus [apt0] doctor2 1 "confirmed" =
      (⟨200, "Appointment status updated successfully"⟩,
       replaceById [apt0] { apt0 with status := "confirmed" }) ∧
    updateAppointmentStatus [apt0] patient1 1 "pending" =
      (⟨200, "Appointment status updated successfully"⟩, [apt0]) := by
  have h := status_update_enum_only [apt0] doctor2 1 "blocked"
  have h2 := status_update_enum_only [apt0] doctor2 1 "confirmed"
  have h3 := status_update_enum_only [apt0] patient1 1 "pending"
  exact ⟨h.1 (by decide),
    h2.2.1 apt0 (by decide) (by decide) (by decide) (by decide) (by decide),
    h3.2.2 apt0 (by decide) (by decide) (by decide) (by decide) (by decide)
      (by decide) (by decide)⟩

end AppointmentApp

/-! ### Claim C3: the cancellation cutoff -/

namespace AppointmentApp

/-- Counterexample to C3: the admin does not bypass the 2-hour cutoff.  One
hour before the start of the appointment (now = 144540, start = 144600) an
admin cancellation is rejected with the timing error, where the claim
requires it to succeed. -/
theorem admin_cancel_cutoff_counterexample :
    cancelAppointment [apt0] admin9 1 144540 =
      (⟨400, "Appointment cannot be cancelled (less than 2 hours away)"⟩, [apt0]) := by
  decide

/-- C3 (amended): for every caller who is the owning patient, the owning
doctor, or an admin, a cancellation more than 2 hours before the
appointment start succeeds (when the cancelled document saves cleanly),
and a cancellation within 2 hours of start fails with the timing error for
every caller — admins included, since the code applies canBeCancelled
uniformly after the ownership checks. -/
theorem cancel_cutoff_uniform :
    ∀ (db : List Appointment) (caller : User) (appointmentId now : Nat)
      (apt : Appointment),
      db.find? (fun a => a.id == appointmentId) = some apt →
      (caller.role = "patient" → apt.patientId = caller.id) →
      (caller.role = "doctor" → apt.doctorId = caller.id) →
      (canBeCancelled now apt = true →
        ¬ HasConflict db { apt with status := "cancelled" } →
        cancelAppointment db caller appointmentId now =
          (⟨200, "Appointment cancelled successfully"⟩,
           replaceById db { apt with status := "cancelled" })) ∧
      (canBeCancelled now apt = false →
        cancelAppointment db caller appointmentId now =
          (⟨400, "Appointment cannot be cancelled (less than 2 hours away)"⟩, db)) := by
  intro db caller appointmentId now apt hfind hpat hdoc
  have h2 : (caller.role == "patient" && !(apt.patientId == caller.id)) = false := by
    by_cases hp : caller.role = "patient"
    · rw [hpat hp]
      simp
    · have hne : (caller.role == "patient") = false := by
        simpa using hp
      rw [hne]
      rfl
  have h3 : (caller.role == "doctor" && !(apt.doctorId == caller.id)) = false := by
    by_cases hd : caller.role = "doctor"
    · rw [hdoc hd]
      simp
    · have hne : (caller.role == "doctor") = false := by
        simpa using hd
      rw [hne]
      rfl
  constructor
  · intro hcb hconf
    have hsave : saveExisting db { apt with status := "cancelled" } =
        Except.ok (replaceById db { apt with status := "cancelled" }) := by
      unfold saveExisting
      rw [(findConflict_eq_none_iff db _).mpr hconf]
    simp [cancelAppointment, hfind, h2, h3, hcb, hsave]
  · intro hcb
    simp [cancelAppointment, hfind, h2, h3, hcb]

/-- Witness for the amended C3: the owning patient cancels long before the
start and succeeds; the same appointment one hour before start cannot be
cancelled even by an admin. -/
theorem cancel_cutoff_uniform_witness :
    cancelAppointment [apt0] patient1 1 1000 =
      (⟨200, "Appointment cancelled successfully"⟩,
       replaceById [apt0] { apt0 with status := "cancelled" }) ∧
    cancelAppointment [apt0] admin9 1 144540 =
      (⟨400, "Appointment cannot be cancelled (less than 2 hours away)"⟩, [apt0]) := by
  refine ⟨(cancel_cutoff_uniform [apt0] patient1 1 1000 apt0 (by decide) (by decide)
      (by decide)).1 (by decide) (by decide),
    (cancel_cutoff_uniform [apt0] admin9 1 144540 apt0 (by decide) (by decide)
      (by decide)).2 (by decide)⟩

end AppointmentApp

/-! ### Claim C4: past dates are rejected at creation -/

namespace AppointmentApp

theorem validate_true_iff (now : Nat) (a : Appointment) :
    validateAppointment now a = true ↔
      (now < a.date ∧ validTime a.time = true ∧ validStatus a.status = true ∧
       15 ≤ a.duration ∧ a.duration ≤ 120 ∧
       a.notes.length ≤ 500 ∧ a.symptoms.length ≤ 300) := by
  simp [validateAppointment, and_assoc]

/-- C4: a creation request whose date is not in the future at the
submission instant is rejected with the past-date error and nothing is
persisted, and every creation that answers 201 appended exactly one
appointment whose date is strictly after the submission instant. -/
theorem past_date_rejected :
    ∀ (users : List User) (db : List Appointment) (caller : User)
      (body : CreateBody) (now : Nat),
      (∀ doctorId date time,
        body.doctorId = some doctorId → body.date = some date →
        body.time = some time →
        (users.find? (fun u => u.id == doctorId && u.role == "doctor" && u.isActive)).isSome = true →
        date ≤ now →
        createAppointment users db caller body now =
          (⟨400, "Appointment date cannot be in the past"⟩, db)) ∧
      (∀ r db', createAppointment users db caller body now = (r, db') →
        r.code = 201 → ∃ a, db' = db ++ [a] ∧ now < a.date) := by
  intro users db caller body now
  constructor
  · intro doctorId date time hbd hbdate hbtime hdoc hdate
    cases hfu : users.find? (fun u => u.id == doctorId && u.role == "doctor" && u.isActive) with
    | none => rw [hfu] at hdoc; simp at hdoc
    | some u => simp [createAppointment, hbd, hbdate, hbtime, hfu, hdate]
  · intro r db' heq h201
    unfold createAppointment at heq
    split at heq
    · split at heq
      · obtain ⟨rfl, rfl⟩ := Prod.mk.injEq .. |>.mp heq
        exact absurd h201 (by decide)
      · split at heq
        · obtain ⟨rfl, rfl⟩ := Prod.mk.injEq .. |>.mp heq
          exact absurd h201 (by decide)
        · split at heq
          · split at heq
            · obtain ⟨rfl, rfl⟩ := Prod.mk.injEq .. |>.mp heq
              simp at h201
            · obtain ⟨rfl, rfl⟩ := Prod.mk.injEq .. |>.mp heq
              exact absurd h201 (by decide)
          · rename_i hsave
            obtain ⟨rfl, rfl⟩ := Prod.mk.injEq .. |>.mp heq
            obtain ⟨hv, hfc, rfl⟩ := saveNew_eq_ok_iff.mp hsave
            exact ⟨_, rfl, ((validate_true_iff _ _).mp hv).1⟩
    · obtain ⟨rfl, rfl⟩ := Prod.mk.injEq .. |>.mp heq
      exact absurd h201 (by decide)

/-- Witness for C4: a request dated before now is rejected with the
past-date error, and a successful concrete creation stores a date strictly
after now. -/
theorem past_date_rejected_witness :
    createAppointment [doctor2] [] patient1
      { doctorId := some 2, date := some 500, time := some "10:00" } 1000 =
      (⟨400, "Appointment date cannot be in the past"⟩, []) ∧
    ∃ a : Appointment,
      ([{ id := 1, patientId := 1, doctorId := 2, date := 144600, time := "10:00",
          duration := 30, status := "pending", notes := "", symptoms := "",
          isUrgent := false, createdAt := 1000 }] : List Appointment) = [] ++ [a] ∧
      1000 < a.date := by
  have h := past_date_rejected [doctor2] [] patient1
    { doctorId := some 2, date := some 500, time := some "10:00" } 1000
  have h2 := past_date_rejected [doctor2] [] patient1
    { doctorId := some 2, date := some 144600, time := some "10:00" } 1000
  refine ⟨h.1 2 500 "10:00" rfl rfl rfl (by decide) (by decide), ?_⟩
  exact h2.2 (⟨201, "Appointment created successfully"⟩ : ApiResponse)
    ([{ id := 1, patientId := 1, doctorId := 2, date := 144600, time := "10:00",
        duration := 30, status := "pending", notes := "", symptoms := "",
        isUrgent := false, createdAt := 1000 }] : List Appointment) (by decide) rfl

end AppointmentApp

/-! ### Claim C5: duration bounds at creation -/

namespace AppointmentApp

theorem create_success_of_valid {users : List User} {db : List Appointment}
    {caller : User} {body : CreateBody} {now doctorId date : Nat} {time : String}
    (hbd : body.doctorId = some doctorId) (hbdate : body.date = some date)
    (hbtime : body.time = some time)
    (hfu : (users.find? (fun u => u.id == doctorId && u.role == "doctor" && u.isActive)).isSome = true)
    (hdate : now < date)
    (hval : validateAppointment now (newAppointmentDoc db caller doctorId date time body now) = true)
    (hconf : ¬ HasConflict db (newAppointmentDoc db caller doctorId date time body now)) :
    createAppointment users db caller body now =
      (⟨201, "Appointment created successfully"⟩,
       db ++ [newAppointmentDoc db caller doctorId date time body now]) := by
  obtain ⟨u, hfu'⟩ := Option.isSome_iff_exists.mp hfu
  have hnotle : ¬ (date ≤ now) := by omega
  have hsave : saveNew now db (newAppointmentDoc db caller doctorId date time body now) =
      Except.ok (db ++ [newAppointmentDoc db caller doctorId date time body now]) := by
    unfold saveNew
    rw [if_pos hval, (findConflict_eq_none_iff db _).mpr hconf]
  simp [createAppointment, hbd, hbdate, hbtime, hfu', hnotle, hsave]

theorem create_validation_failure {users : List User} {db : List Appointment}
    {caller : User} {body : CreateBody} {now doctorId date : Nat} {time : String}
    (hbd : body.doctorId = some doctorId) (hbdate : body.date = some date)
    (hbtime : body.time = some time)
    (hfu : (users.find? (fun u => u.id == doctorId && u.role == "doctor" && u.isActive)).isSome = true)
    (hdate : now < date)
    (hval : validateAppointment now (newAppointmentDoc db caller doctorId date time body now) = false) :
    createAppointment users db caller body now = (⟨400, "Validation failed"⟩, db) := by
  obtain ⟨u, hfu'⟩ := Option.isSome_iff_exists.mp hfu
  have hnotle : ¬ (date ≤ now) := by omega
  have hsave : saveNew now db (newAppointmentDoc db caller doctorId date time body now) =
      Except.error "Validation failed" := by
    unfold saveNew
    rw [hval]
    rfl
  have hze : (("Validation failed" : String) == "Appointment slot is already booked") = false := by
    decide
  simp [createAppointment, hbd, hbdate, hbtime, hfu', hnotle, hsave, hze]

/-- Counterexample to C5: a provided duration of 0 lies outside [15, 120]
but is not rejected: the JavaScript or-default coerces it to 30 and
creation succeeds with duration 30. -/
theorem duration_zero_counterexample :
    createAppointment [doctor2] [] patient1
      { doctorId := some 2, date := some 144600, time := some "10:00",
        duration := some 0 } 1000 =
      (⟨201, "Appointment created successfully"⟩,
       [{ id := 1, patientId := 1, doctorId := 2, date := 144600, time := "10:00",
          duration := 30, status := "pending", notes := "", symptoms := "",
          isUrgent := false, createdAt := 1000 }]) := by
  decide

/-- C5 (amended): for an otherwise well-formed creation request, a provided
nonzero duration outside [15, 120] is rejected with a validation error;
every provided duration in [15, 120] — the boundaries 15 and 120 included —
is accepted and stored as given; an omitted duration is accepted and stored
as 30; and a provided duration of 0, although outside [15, 120], is treated
like an omitted one and stored as 30. -/
theorem duration_bounds_amended :
    ∀ (users : List User) (db : List Appointment) (caller : User)
      (body : CreateBody) (now doctorId date : Nat) (time : String),
      body.doctorId = some doctorId → body.date = some date →
      body.time = some time →
      (users.find? (fun u => u.id == doctorId && u.role == "doctor" && u.isActive)).isSome = true →
      now < date → validTime time = true →
      (body.notes.getD "").length ≤ 500 →
      (body.symptoms.getD "").length ≤ 300 →
      (∀ d : Int, body.duration = some d → d ≠ 0 → (d < 15 ∨ 120 < d) →
        createAppointment users db caller body now =
          (⟨400, "Validation failed"⟩, db)) ∧
      (¬ HasConflict db (newAppointmentDoc db caller doctorId date time body now) →
        (∀ d : Int, body.duration = some d → 15 ≤ d → d ≤ 120 →
          createAppointment users db caller body now =
            (⟨201, "Appointment created successfully"⟩,
             db ++ [newAppointmentDoc db caller doctorId date time body now]) ∧
          (newAppointmentDoc db caller doctorId date time body now).duration = d) ∧
        (body.duration = none ∨ body.duration = some 0 →
          createAppointment users db caller body now =
            (⟨201, "Appointment created successfully"⟩,
             db ++ [newAppointmentDoc db caller doctorId date time body now]) ∧
          (newAppointmentDoc db caller doctorId date time body now).duration = 30)) := by
  intro users db caller body now doctorId date time hbd hbdate hbtime hfu hdate hvt hnotes hsym
  constructor
  · intro d hbdur hd0 hout
    have hdur : (newAppointmentDoc db caller doctorId date time body now).duration = d := by
      simp [newAppointmentDoc, jsOr, hbdur, hd0]
    refine create_validation_failure hbd hbdate hbtime hfu hdate ?_
    rw [Bool.eq_false_iff, Ne, validate_true_iff]
    intro h
    obtain ⟨_, _, _, h15, h120, _, _⟩ := h
    rw [hdur] at h15 h120
    rcases hout with h | h <;> omega
  · intro hconf
    constructor
    · intro d hbdur h15 h120
      have hdur : (newAppointmentDoc db caller doctorId date time body now).duration = d := by
        have : d ≠ 0 := by omega
        simp [newAppointmentDoc, jsOr, hbdur, this]
      have hval : validateAppointment now (newAppointmentDoc db caller doctorId date time body now) = true := by
        rw [validate_true_iff]
        exact ⟨hdate, hvt, rfl, by rw [hdur]; exact h15,
          by rw [hdur]; exact h120, hnotes, hsym⟩
      exact ⟨create_success_of_valid hbd hbdate hbtime hfu hdate hval hconf, hdur⟩
    · intro hbdur
      have hdur : (newAppointmentDoc db caller doctorId date time body now).duration = 30 := by
        rcases hbdur with h | h <;> simp [newAppointmentDoc, jsOr, h]
      have hval : validateAppointment now (newAppointmentDoc db caller doctorId date time body now) = true := by
        rw [validate_true_iff]
        exact ⟨hdate, hvt, rfl, by rw [hdur]; decide,
          by rw [hdur]; decide, hnotes, hsym⟩
      exact ⟨create_success_of_valid hbd hbdate hbtime hfu hdate hval hconf, hdur⟩

/-- Witness for the amended C5: duration 14 is rejected, the boundary
durations 15 and 120 are accepted as given, an omitted duration and a
duration of 0 are both stored as 30. -/
theorem duration_bounds_amended_witness :
    createAppointment [doctor2] [] patient1
      { doctorId := some 2, date := some 144600, time := some "10:00",
        duration := some 14 } 1000 = (⟨400, "Validation failed"⟩, []) ∧
    (newAppointmentDoc [] patient1 2 144600 "10:00"
      { doctorId := some 2, date := some 144600, time := some "10:00",
        duration := some 15 } 1000).duration = 15 ∧
    (newAppointmentDoc [] patient1 2 144600 "10:00"
      { doctorId := some 2, date := some 144600, time := some "10:00",
        duration := some 120 } 1000).duration = 120 ∧
    (newAppointmentDoc [] patient1 2 144600 "10:00"
      { doctorId := some 2, date := some 144600, time := some "10:00",
        duration := some 0 } 1000).duration = 30 ∧
    createAppointment [doctor2] [] patient1
      { doctorId := some 2, date := some 144600, time := some "10:00",
        duration := some 0 } 1000 =
      (⟨201, "Appointment created successfully"⟩,
       [] ++ [newAppointmentDoc [] patient1 2 144600 "10:00"
         { doctorId := some 2, date := some 144600, time := some "10:00",
           duration := some 0 } 1000]) := by
  have h14 := duration_bounds_amended [doctor2] [] patient1
    { doctorId := some 2, date := some 144600, time := some "10:00",
      duration := some 14 } 1000 2 144600 "10:00"
    rfl rfl rfl (by decide) (by decide) (by decide) (by decide) (by decide)
  have h15 := duration_bounds_amended [doctor2] [] patient1
    { doctorId := some 2, date := some 144600, time := some "10:00",
      duration := some 15 } 1000 2 144600 "10:00"
    rfl rfl rfl (by decide) (by decide) (by decide) (by decide) (by decide)
  have h120 := duration_bounds_amended [doctor2] [] patient1
    { doctorId := some 2, date := some 144600, time := some "10:00",
      duration := some 120 } 1000 2 144600 "10:00"
    rfl rfl rfl (by decide) (by decide) (by decide) (by decide) (by decide)
  have h0 := duration_bounds_amended [doctor2] [] patient1
    { doctorId := some 2, date := some 144600, time := some "10:00",
      duration := some 0 } 1000 2 144600 "10:00"
    rfl rfl rfl (by decide) (by decide) (by decide) (by decide) (by decide)
  refine ⟨h14.1 14 rfl (by decide) (by decide), ?_, ?_, ?_, ?_⟩
  · exact ((h15.2 (by decide)).1 15 rfl (by decide) (by decide)).2
  · exact ((h120.2 (by decide)).1 120 rfl (by decide) (by decide)).2
  · exact ((h0.2 (by decide)).2 (Or.inr rfl)).2
  · exact ((h0.2 (by decide)).2 (Or.inr rfl)).1

end AppointmentApp

/-! ### Claim C9: the guard compares times exactly and ignores duration -/

namespace AppointmentApp

/-- C9: the conflict guard is insensitive to duration — changing the
duration of the document being saved does not change the result of the
conflict query — and it compares the time field by exact string equality,
so two appointments for the same doctor on the same date whose start-time
strings differ are both saved successfully whatever their durations, even
when their time intervals overlap. -/
theorem conflict_guard_ignores_duration :
    (∀ (db : List Appointment) (a : Appointment) (d : Int),
      findConflict db { a with duration := d } = findConflict db a) ∧
    (∀ (now : Nat) (a b : Appointment),
      validateAppointment now a = true → validateAppointment now b = true →
      b.doctorId = a.doctorId → b.date = a.date → b.time ≠ a.time →
      saveNew now [] a = Except.ok [a] ∧
      saveNew now [a] b = Except.ok [a, b]) := by
  constructor
  · intro db a d
    rfl
  · intro now a b hva hvb hdoc hdate htime
    constructor
    · unfold saveNew
      rw [if_pos hva]
      rfl
    · have hcw : conflictsWith b a = false := by
        have h : (a.time == b.time) = false :=
          beq_eq_false_iff_ne.mpr fun h => htime h.symm
        simp [conflictsWith, h]
      have hfc : findConflict [a] b = none := by
        simp [findConflict, List.find?, hcw]
      unfold saveNew
      rw [if_pos hvb, hfc]
      rfl

/-- Witness for C9 at the inputs of the claim: 10:00 with duration 60 and
10:30 with duration 30, same doctor and date — the intervals overlap, yet
both saves succeed; and the guard result is unchanged by duration. -/
theorem conflict_guard_ignores_duration_witness :
    findConflict [apt0] { apt0 with id := 5, duration := 90 } =
      findConflict [apt0] { apt0 with id := 5 } ∧
    saveNew 1000 [] { apt0 with duration := 60 } =
      Except.ok [{ apt0 with duration := 60 }] ∧
    saveNew 1000 [{ apt0 with duration := 60 }]
        { apt0 with id := 2, time := "10:30", duration := 30 } =
      Except.ok [{ apt0 with duration := 60 },
                 { apt0 with id := 2, time := "10:30", duration := 30 }] := by
  have h := conflict_guard_ignores_duration
  refine ⟨h.1 [apt0] { apt0 with id := 5 } 90, ?_, ?_⟩
  · exact (h.2 1000 { apt0 with duration := 60 }
      { apt0 with id := 2, time := "10:30", duration := 30 }
      (by decide) (by decide) (by decide) (by decide) (by decide)).1
  · exact (h.2 1000 { apt0 with duration := 60 }
      { apt0 with id := 2, time := "10:30", duration := 30 }
      (by decide) (by decide) (by decide) (by decide) (by decide)).2

end AppointmentApp

/-! ### Claim C6: role-scoped listing -/

namespace AppointmentApp

theorem mem_getAppointments_filter {db : List Appointment} {caller : User}
    {statusQ : Option String} {dateQ : Option Nat} {limit page : Nat}
    {a : Appointment} (ha : a ∈ getAppointments db caller statusQ dateQ limit page) :
    a ∈ db.filter (matchesQuery caller statusQ dateQ) := by
  unfold getAppointments at ha
  exact ((List.mergeSort_perm _ _).mem_iff).mp
    (List.mem_of_mem_drop (List.mem_of_mem_take ha))

/-- C6: every appointment returned by the listing lies in the collection
and satisfies the role scope (patients only see their own, doctors only
theirs, admins are unrestricted), and with no status or date filter and a
window covering the whole collection the listing returns exactly the
role-scoped appointments. -/
theorem role_scoped_listing :
    ∀ (db : List Appointment) (caller : User) (statusQ : Option String)
      (dateQ : Option Nat) (limit page : Nat),
      (∀ a ∈ getAppointments db caller statusQ dateQ limit page,
        a ∈ db ∧ roleFilter caller a = true) ∧
      (∀ a, a ∈ getAppointments db caller none none db.length 1 ↔
        (a ∈ db ∧ roleFilter caller a = true)) ∧
      (caller.role = "patient" →
        ∀ a ∈ getAppointments db caller statusQ dateQ limit page,
          a.patientId = caller.id) ∧
      (caller.role = "doctor" →
        ∀ a ∈ getAppointments db caller statusQ dateQ limit page,
          a.doctorId = caller.id) := by
  intro db caller statusQ dateQ limit page
  have hscope : ∀ a ∈ getAppointments db caller statusQ dateQ limit page,
      a ∈ db ∧ roleFilter caller a = true := by
    intro a ha
    have hf := List.mem_filter.mp (mem_getAppointments_filter ha)
    refine ⟨hf.1, ?_⟩
    have hq := hf.2
    simp only [matchesQuery, Bool.and_eq_true] at hq
    exact hq.1.1
  refine ⟨hscope, ?_, ?_, ?_⟩
  · intro a
    constructor
    · intro ha
      have hf := List.mem_filter.mp (mem_getAppointments_filter ha)
      refine ⟨hf.1, ?_⟩
      have hq := hf.2
      simp only [matchesQuery, Bool.and_eq_true] at hq
      exact hq.1.1
    · intro ⟨hmem, hrf⟩
      unfold getAppointments
      have e1 : (1 - 1) * db.length = 0 := by simp
      rw [e1, List.drop_zero]
      have hlen : ((db.filter (matchesQuery caller none none)).mergeSort aptBefore).length ≤
          db.length := by
        rw [List.length_mergeSort]
        exact List.length_filter_le _ _
      rw [List.take_of_length_le hlen,
        (List.mergeSort_perm _ _).mem_iff, List.mem_filter]
      refine ⟨hmem, ?_⟩
      simp [matchesQuery, hrf]
  · intro hrole a ha
    have hrf := (hscope a ha).2
    simpa [roleFilter, hrole] using hrf
  · intro hrole a ha
    have hrf := (hscope a ha).2
    have hnp : caller.role ≠ "patient" := by rw [hrole]; decide
    simpa [roleFilter, hrole, hnp] using hrf

/-- Witness for C6: with two stored appointments belonging to different
patients, patient 1 sees exactly their own appointment. -/
theorem role_scoped_listing_witness :
    apt0 ∈ getAppointments
      [apt0, { apt0 with id := 2, patientId := 3, time := "12:00" }]
      patient1 none none 2 1 ∧
    { apt0 with id := 2, patientId := 3, time := "12:00" } ∉ getAppointments
      [apt0, { apt0 with id := 2, patientId := 3, time := "12:00" }]
      patient1 none none 2 1 := by
  have h := role_scoped_listing
    [apt0, { apt0 with id := 2, patientId := 3, time := "12:00" }]
    patient1 none none 2 1
  constructor
  · exact (h.2.1 apt0).mpr ⟨by simp, by decide⟩
  · intro hmem
    exact absurd ((h.2.1 _).mp hmem).2 (by decide)

end AppointmentApp

/-! ### Claim C7: does a response reveal out-of-scope existence? -/

namespace AppointmentApp

/-- Counterexample to C7: the status-update operation answers 403 Access
denied for an existing appointment outside the caller scope and 404
Appointment not found for an absent id, so the two responses are
distinguishable and the operation reveals existence. -/
theorem scope_leak_counterexample :
    updateAppointmentStatus [apt0] patient3 1 "confirmed" =
      (⟨403, "Access denied"⟩, [apt0]) ∧
    updateAppointmentStatus [apt0] patient3 99 "confirmed" =
      (⟨404, "Appointment not found"⟩, [apt0]) ∧
    (⟨403, "Access denied"⟩ : ApiResponse) ≠ ⟨404, "Appointment not found"⟩ := by
  exact ⟨by decide, by decide, by decide⟩

/-- C7 (amended): only the read-by-id operation hides existence — for it an
out-of-scope id and an absent id both answer 404 Appointment not found —
while the status-update and cancel operations answer 403 Access denied for
an existing out-of-scope appointment, which differs from the 404 answered
for an absent id. -/
theorem scope_hiding_read_only :
    ∀ (db : List Appointment) (caller : User) (appointmentId : Nat),
      (caller.role = "patient" →
        (∀ a ∈ db, a.id = appointmentId → a.patientId ≠ caller.id) →
        getAppointmentById db caller appointmentId = ⟨404, "Appointment not found"⟩) ∧
      (caller.role = "doctor" →
        (∀ a ∈ db, a.id = appointmentId → a.doctorId ≠ caller.id) →
        getAppointmentById db caller appointmentId = ⟨404, "Appointment not found"⟩) ∧
      ((∀ a ∈ db, a.id ≠ appointmentId) →
        getAppointmentById db caller appointmentId = ⟨404, "Appointment not found"⟩) ∧
      (∀ apt (s : String) (now : Nat), validStatus s = true →
        db.find? (fun a => a.id == appointmentId) = some apt →
        ((caller.role = "patient" ∧ apt.patientId ≠ caller.id) ∨
         (caller.role = "doctor" ∧ apt.doctorId ≠ caller.id)) →
        updateAppointmentStatus db caller appointmentId s = (⟨403, "Access denied"⟩, db) ∧
        cancelAppointment db caller appointmentId now = (⟨403, "Access denied"⟩, db)) := by
  intro db caller appointmentId
  refine ⟨?_, ?_, ?_, ?_⟩
  · intro hrole hout
    have hnone : db.find? (fun a => a.id == appointmentId && roleFilter caller a) = none := by
      rw [List.find?_eq_none]
      intro a ha hcontra
      simp only [roleFilter, hrole, Bool.and_eq_true, beq_iff_eq] at hcontra
      obtain ⟨hid, hpid⟩ := hcontra
      rw [if_pos (by decide)] at hpid
      exact hout a ha hid (by simpa using hpid)
    simp [getAppointmentById, hnone]
  · intro hrole hout
    have hnone : db.find? (fun a => a.id == appointmentId && roleFilter caller a) = none := by
      rw [List.find?_eq_none]
      intro a ha hcontra
      simp only [roleFilter, hrole, Bool.and_eq_true, beq_iff_eq] at hcontra
      obtain ⟨hid, hpid⟩ := hcontra
      rw [if_neg (by decide), if_pos (by decide)] at hpid
      exact hout a ha hid (by simpa using hpid)
    simp [getAppointmentById, hnone]
  · intro hout
    have hnone : db.find? (fun a => a.id == appointmentId && roleFilter caller a) = none := by
      rw [List.find?_eq_none]
      intro a ha hcontra
      simp only [Bool.and_eq_true, beq_iff_eq] at hcontra
      exact hout a ha hcontra.1
    simp [getAppointmentById, hnone]
  · intro apt s now hv hfind hcase
    rcases hcase with ⟨hrole, hne⟩ | ⟨hrole, hne⟩
    · have h2 : (caller.role == "patient" && !(apt.patientId == caller.id)) = true := by
        simp [hrole, hne]
      exact ⟨by simp [updateAppointmentStatus, hv, hfind, h2],
        by simp [cancelAppointment, hfind, h2]⟩
    · have hp : (caller.role == "patient") = false := by
        simp [hrole]
      have h3 : (caller.role == "doctor" && !(apt.doctorId == caller.id)) = true := by
        simp [hrole, hne]
      exact ⟨by simp [updateAppointmentStatus, hv, hfind, hp, h3],
        by simp [cancelAppointment, hfind, hp, h3]⟩

/-- Witness for the amended C7: for patient 3 the out-of-scope read of
appointment 1 and the read of the absent appointment 99 both answer the
same 404, while update and cancel answer 403 on the same out-of-scope id. -/
theorem scope_hiding_read_only_witness :
    getAppointmentById [apt0] patient3 1 = ⟨404, "Appointment not found"⟩ ∧
    getAppointmentById [apt0] patient3 99 = ⟨404, "Appointment not found"⟩ ∧
    updateAppointmentStatus [apt0] patient3 1 "confirmed" = (⟨403, "Access denied"⟩, [apt0]) ∧
    cancelAppointment [apt0] patient3 1 1000 = (⟨403, "Access denied"⟩, [apt0]) := by
  have h1 := scope_hiding_read_only [apt0] patient3 1
  have h99 := scope_hiding_read_only [apt0] patient3 99
  have h403 := h1.2.2.2 apt0 "confirmed" 1000 (by decide) (by decide)
    (Or.inl ⟨rfl, by decide⟩)
  exact ⟨h1.1 rfl (by decide), h99.2.2.1 (by decide), h403.1, h403.2⟩

end AppointmentApp

/-! ### Claim C10: the self-deactivation guard -/

namespace AppointmentApp

/-- C10: for an admin caller present in the user collection, a user
status-update request targeting the caller own id is rejected with the
error Cannot deactivate your own account for every requested isActive
value, true included, and the user collection is unchanged. -/
theorem self_status_update_rejected :
    ∀ (users : List User) (caller : User) (isActive : Bool),
      caller.role = "admin" →
      (users.find? (fun u => u.id == caller.id)).isSome = true →
      updateUserStatus users caller caller.id isActive =
        (⟨400, "Cannot deactivate your own account"⟩, users) := by
  intro users caller isActive hrole hfu
  obtain ⟨u, hfu'⟩ := Option.isSome_iff_exists.mp hfu
  have hid : u.id = caller.id := by
    have := List.find?_some hfu'
    simpa using this
  simp [updateUserStatus, hrole, hfu', hid]

/-- Witness for C10: the sample admin can neither deactivate nor
re-activate their own account. -/
theorem self_status_update_rejected_witness :
    updateUserStatus [admin9] admin9 9 true =
      (⟨400, "Cannot deactivate your own account"⟩, [admin9]) ∧
    updateUserStatus [admin9] admin9 9 false =
      (⟨400, "Cannot deactivate your own account"⟩, [admin9]) := by
  exact ⟨self_status_update_rejected [admin9] admin9 true rfl (by decide),
    self_status_update_rejected [admin9] admin9 false rfl (by decide)⟩

end AppointmentApp
